import Mathlib

/-!
Verification of the adaptive interview orchestration core of the
Smart-Sheet repository: a shallow embedding of `utils/json_parser.py` and
`orchestrator.py` (the candidate profile, the continue/stop policy, the
question-queue state machine and its error handling), together with
theorems settling the specification's claims about them.

External collaborators (LLM-backed agents) are modelled as call outcomes
supplied in an environment record: each call either returns a payload or a
definitive failure, exactly the shape the orchestrator consumes.
Wall-clock timestamps are modelled as natural-number ticks.
-/

namespace SmartSheet

/-! ## JSON values and a model of Python `json.loads`

`utils/json_parser.py` delegates the actual parsing to `json.loads`.
Numbers are kept as their raw lexemes: the parsing logic under
verification never computes with parsed numbers, only succeeds or fails,
and the lexeme determines the Python value. -/

inductive Jval where
  | jnull : Jval
  | jbool : Bool → Jval
  | jnum : String → Jval
  | jstr : String → Jval
  | jarr : List Jval → Jval
  | jobj : List (String × Jval) → Jval

/-- The opening brace character. -/
def lbrace : Char := Char.ofNat 123

/-- The closing brace character. -/
def rbrace : Char := Char.ofNat 125

/-- Whitespace accepted by `json.loads` between tokens. -/
def jsonWS (c : Char) : Bool := c = ' ' || c = '\t' || c = '\n' || c = '\r'

/-- Decode one hexadecimal digit. -/
def hexDigit (c : Char) : Option Nat :=
  if c.isDigit then some (c.toNat - 48)
  else if 'a' ≤ c && c ≤ 'f' then some (c.toNat - 87)
  else if 'A' ≤ c && c ≤ 'F' then some (c.toNat - 55)
  else none

/-- Parse the body of a JSON string literal, after the opening quote.
Mirrors strict-mode `json.loads`: raw control characters are rejected,
exactly the standard escapes are decoded. Returns the decoded string and
the input remaining after the closing quote. -/
def parseJStr : Nat → List Char → List Char → Option (String × List Char)
  | 0, _, _ => none
  | _ + 1, _, [] => none
  | fuel + 1, acc, c :: rest =>
    if c = '\"' then some (String.mk acc.reverse, rest)
    else if c = '\\' then
      match rest with
      | [] => none
      | e :: rest' =>
        if e = '\"' then parseJStr fuel ('\"' :: acc) rest'
        else if e = '\\' then parseJStr fuel ('\\' :: acc) rest'
        else if e = '/' then parseJStr fuel ('/' :: acc) rest'
        else if e = 'b' then parseJStr fuel (Char.ofNat 8 :: acc) rest'
        else if e = 'f' then parseJStr fuel (Char.ofNat 12 :: acc) rest'
        else if e = 'n' then parseJStr fuel ('\n' :: acc) rest'
        else if e = 'r' then parseJStr fuel ('\r' :: acc) rest'
        else if e = 't' then parseJStr fuel ('\t' :: acc) rest'
        else if e = 'u' then
          match rest' with
          | h1 :: h2 :: h3 :: h4 :: rest'' =>
            match hexDigit h1, hexDigit h2, hexDigit h3, hexDigit h4 with
            | some a, some b, some c', some d =>
              parseJStr fuel (Char.ofNat (((a * 16 + b) * 16 + c') * 16 + d) :: acc) rest''
            | _, _, _, _ => none
          | _ => none
        else none
    else if c.toNat < 32 then none
    else parseJStr fuel (c :: acc) rest

/-- Lex a JSON number starting at `l` (first character is `-` or a digit),
returning the lexeme and the rest. Follows the `json` module's number
grammar: `-?(0|[1-9][0-9]*)(.[0-9]+)?([eE][-+]?[0-9]+)?`; a dot or
exponent marker not followed by a digit is left unconsumed. -/
def parseNum (l : List Char) : Option (List Char × List Char) :=
  let sign : List Char × List Char :=
    match l with
    | '-' :: rest => (['-'], rest)
    | _ => ([], l)
  match sign.2 with
  | [] => none
  | c :: rest =>
    if c = '0' ∨ (c.isDigit ∧ c ≠ '0') then
      let intPart : List Char × List Char :=
        if c = '0' then ([c], rest)
        else let sp := rest.span Char.isDigit; (c :: sp.1, sp.2)
      let fracPart : List Char × List Char :=
        match intPart.2 with
        | '.' :: rest' =>
          let sp := rest'.span Char.isDigit
          if sp.1 = [] then ([], intPart.2) else ('.' :: sp.1, sp.2)
        | _ => ([], intPart.2)
      let expPart : List Char × List Char :=
        match fracPart.2 with
        | e :: rest' =>
          if e = 'e' ∨ e = 'E' then
            match rest' with
            | s :: rest'' =>
              if s = '+' ∨ s = '-' then
                let sp := rest''.span Char.isDigit
                if sp.1 = [] then ([], fracPart.2) else (e :: s :: sp.1, sp.2)
              else
                let sp := rest'.span Char.isDigit
                if sp.1 = [] then ([], fracPart.2) else (e :: sp.1, sp.2)
            | [] => ([], fracPart.2)
          else ([], fracPart.2)
        | [] => ([], fracPart.2)
      some (sign.1 ++ intPart.1 ++ fracPart.1 ++ expPart.1, expPart.2)
    else none

mutual

/-- Parse one JSON value (fuel-indexed recursive descent modelling
`json.loads`, which also accepts `NaN`, `Infinity` and `-Infinity`). -/
def parseVal : Nat → List Char → Option (Jval × List Char)
  | 0, _ => none
  | fuel + 1, l =>
    match l.dropWhile jsonWS with
    | [] => none
    | c :: rest =>
      if c = lbrace then parseObjBody fuel rest
      else if c = '[' then parseArrBody fuel rest
      else if c = '\"' then
        match parseJStr (rest.length + 1) [] rest with
        | some (s, r) => some (Jval.jstr s, r)
        | none => none
      else if c = 'n' then
        if "ull".toList.isPrefixOf rest then some (Jval.jnull, rest.drop 3) else none
      else if c = 't' then
        if "rue".toList.isPrefixOf rest then some (Jval.jbool true, rest.drop 3) else none
      else if c = 'f' then
        if "alse".toList.isPrefixOf rest then some (Jval.jbool false, rest.drop 4) else none
      else if c = 'N' then
        if "aN".toList.isPrefixOf rest then some (Jval.jnum "NaN", rest.drop 2) else none
      else if c = 'I' then
        if "nfinity".toList.isPrefixOf rest then some (Jval.jnum "Infinity", rest.drop 7) else none
      else if c = '-' ∧ "Infinity".toList.isPrefixOf rest then
        some (Jval.jnum "-Infinity", rest.drop 8)
      else if c = '-' ∨ c.isDigit then
        match parseNum (c :: rest) with
        | some (lex, r) => some (Jval.jnum (String.mk lex), r)
        | none => none
      else none

/-- Parse an object body, positioned just after the opening brace. -/
def parseObjBody : Nat → List Char → Option (Jval × List Char)
  | 0, _ => none
  | fuel + 1, l =>
    match l.dropWhile jsonWS with
    | [] => none
    | c :: rest =>
      if c = rbrace then some (Jval.jobj [], rest)
      else parseObjItems fuel [] (c :: rest)

/-- Parse the comma-separated members of a non-empty object. -/
def parseObjItems : Nat → List (String × Jval) → List Char → Option (Jval × List Char)
  | 0, _, _ => none
  | fuel + 1, acc, l =>
    match l.dropWhile jsonWS with
    | c :: rest =>
      if c = '\"' then
        match parseJStr (rest.length + 1) [] rest with
        | some (k, r1) =>
          match r1.dropWhile jsonWS with
          | ':' :: r2 =>
            match parseVal fuel r2 with
            | some (v, r3) =>
              match r3.dropWhile jsonWS with
              | c2 :: r4 =>
                if c2 = ',' then parseObjItems fuel (acc ++ [(k, v)]) r4
                else if c2 = rbrace then some (Jval.jobj (acc ++ [(k, v)]), r4)
                else none
              | [] => none
            | none => none
          | _ => none
        | none => none
      else none
    | [] => none

/-- Parse an array body, positioned just after the opening bracket. -/
def parseArrBody : Nat → List Char → Option (Jval × List Char)
  | 0, _ => none
  | fuel + 1, l =>
    match l.dropWhile jsonWS with
    | [] => none
    | c :: rest =>
      if c = ']' then some (Jval.jarr [], rest)
      else parseArrItems fuel [] (c :: rest)

/-- Parse the comma-separated elements of a non-empty array. -/
def parseArrItems : Nat → List Jval → List Char → Option (Jval × List Char)
  | 0, _, _ => none
  | fuel + 1, acc, l =>
    match parseVal fuel l with
    | some (v, r) =>
      match r.dropWhile jsonWS with
      | c :: rest =>
        if c = ',' then parseArrItems fuel (acc ++ [v]) rest
        else if c = ']' then some (Jval.jarr (acc ++ [v]), rest)
        else none
      | [] => none
    | none => none

end

/-- Model of Python `json.loads`: parse one value, then require only
trailing whitespace. -/
def loads (s : String) : Option Jval :=
  match parseVal (3 * s.length + 3) s.toList with
  | some (v, rest) => if rest.dropWhile jsonWS = [] then some v else none
  | none => none

/-! ## The fallback extraction strategies of `parse_json_response`

Strategy two of `utils/json_parser.py` is
`re.search` of a triple-backtick fence pattern (optional `json` tag,
whitespace, then a lazily matched brace-to-brace group, whitespace, and a
closing fence). Strategy three is `re.findall` of the nested-brace pattern
`\x7b(?:[^\x7b\x7d]|\x7b(?:[^\x7b\x7d]|\x7b[^\x7b\x7d]*\x7d)*\x7d)*\x7d`,
which matches brace groups nested at most three levels deep and has no
notion of string literals. Both regexes are deterministic on their
alphabet (no alternative can consume a brace or backtick that another
branch needs), so they are modelled by the direct recursive matchers
below, which return exactly the spans the Python regexes produce. -/

/-- Whitespace class of Python's `re` module (`\s`, ASCII range). -/
def reWS (c : Char) : Bool :=
  c = ' ' || c = '\t' || c = '\n' || c = '\r' || c = Char.ofNat 11 || c = Char.ofNat 12

/-- Does `\s*` followed by a literal closing fence match here? Because a
backtick is not whitespace, only the maximal whitespace run can precede
the fence. -/
def fenceTail (l : List Char) : Bool :=
  "```".toList.isPrefixOf (l.dropWhile reWS)

/-- Find the earliest closing brace whose tail matches `\s*` + fence
(the lazy `.*?` of the pattern); returns the group's characters after the
opening brace, closing brace included, in order. -/
def fenceClose (acc : List Char) : List Char → Option (List Char)
  | [] => none
  | c :: rest =>
    if c = rbrace ∧ fenceTail rest then some (acc.reverse ++ [c])
    else fenceClose (c :: acc) rest

/-- Try to match the fence pattern body starting just after an opening
triple backtick: optional `json` tag (tried first, as the regex does),
whitespace, an opening brace, then the lazily closed group. -/
def fenceFrom (l : List Char) : Option (List Char) :=
  let attempt : List Char → Option (List Char) := fun l' =>
    match l'.dropWhile reWS with
    | c :: rest => if c = lbrace then (fenceClose [] rest).map (fun g => c :: g) else none
    | [] => none
  if "json".toList.isPrefixOf l then
    match attempt (l.drop 4) with
    | some g => some g
    | none => attempt l
  else attempt l

/-- `re.search` of the fence pattern: leftmost start position wins. -/
def fenceSearch : List Char → Option (List Char)
  | [] => none
  | c :: rest =>
    if "```".toList.isPrefixOf (c :: rest) then
      match fenceFrom ((c :: rest).drop 3) with
      | some g => some g
      | none => fenceSearch rest
    else fenceSearch rest

/-- Matcher for the nested-brace regex at nesting budget `depth` (number
of additional levels the pattern still allows inside the current group),
positioned after the group's opening brace with `acc` holding the
consumed characters in reverse. Returns the matched span (braces
included) and the rest of the input. -/
def braceScan : Nat → Nat → List Char → List Char → Option (List Char × List Char)
  | 0, _, _, _ => none
  | _ + 1, _, _, [] => none
  | fuel + 1, depth, acc, c :: rest =>
    if c = rbrace then some ((lbrace :: acc.reverse) ++ [c], rest)
    else if c = lbrace then
      match depth with
      | 0 => none
      | d + 1 =>
        match braceScan fuel d [] rest with
        | some (m, rest') => braceScan fuel depth (m.reverseAux acc) rest'
        | none => none
    else braceScan fuel depth (c :: acc) rest

/-- `re.findall` of the nested-brace pattern: scan left to right, taking
non-overlapping matches; a failed attempt advances by one character. -/
def findSpans : Nat → List Char → List (List Char)
  | 0, _ => []
  | _ + 1, [] => []
  | fuel + 1, c :: rest =>
    if c = lbrace then
      match braceScan (rest.length + 1) 2 [] rest with
      | some (m, rest') => m :: findSpans fuel rest'
      | none => findSpans fuel rest
    else findSpans fuel rest

/-- Result of `parse_json_response`: either parsed data or the error
dictionary (`error` message plus the optional `raw_response` field). -/
inductive ParseResult where
  | success : Jval → ParseResult
  | failure : String → Option String → ParseResult

/-- Attempt `json.loads` on candidate spans left to right; first success
wins (the strategy-three loop of `parse_json_response`). -/
def tryLoadList : List (List Char) → Option Jval
  | [] => none
  | sp :: rest =>
    match loads (String.mk sp) with
    | some d => some d
    | none => tryLoadList rest

/-- `JSONParser.parse_json_response` from `utils/json_parser.py`: empty
input is rejected up front; then direct parse, fenced-block extraction,
and the brace-span scan are attempted in order; on exhaustion the error
carries the original text in `raw_response`. -/
def parse_json_response (s : String) : ParseResult :=
  if s = "" then .failure "Empty or invalid response text" none
  else
    match loads s with
    | some d => .success d
    | none =>
      let viaFence : Option Jval :=
        match fenceSearch s.toList with
        | some g => loads (String.mk g)
        | none => none
      match viaFence with
      | some d => .success d
      | none =>
        match tryLoadList (findSpans s.toList.length s.toList) with
        | some d => .success d
        | none => .failure "Could not parse valid JSON from response" (some s)

/-! ### The brace scanner as the specification words it

The spec (§4.2, strategy 3) describes the scan as "tracking nested braces
so inner braces in string values don't break matching". The definitions
below follow that wording — unlimited nesting depth, string literals
tracked with escape handling — to be compared against the regex-based
scanner the code actually uses. -/

/-- Spec-worded balanced-brace matcher: positioned after an opening
brace, track nesting depth and whether the scanner is inside a string
literal (where braces are ordinary characters and a backslash escapes the
next character). -/
def specScan : Nat → Nat → Bool → Bool → List Char → List Char → Option (List Char × List Char)
  | 0, _, _, _, _, _ => none
  | _ + 1, _, _, _, _, [] => none
  | fuel + 1, depth, inStr, esc, acc, c :: rest =>
    if inStr then
      if esc then specScan fuel depth true false (c :: acc) rest
      else if c = '\\' then specScan fuel depth true true (c :: acc) rest
      else if c = '\"' then specScan fuel depth false false (c :: acc) rest
      else specScan fuel depth true false (c :: acc) rest
    else if c = '\"' then specScan fuel depth true false (c :: acc) rest
    else if c = lbrace then specScan fuel (depth + 1) false false (c :: acc) rest
    else if c = rbrace then
      match depth with
      | 0 => some ((lbrace :: acc.reverse) ++ [c], rest)
      | d + 1 => specScan fuel d false false (c :: acc) rest
    else specScan fuel depth false false (c :: acc) rest

/-- Spec-worded left-to-right collection of balanced brace spans. -/
def specSpans : Nat → List Char → List (List Char)
  | 0, _ => []
  | _ + 1, [] => []
  | fuel + 1, c :: rest =>
    if c = lbrace then
      match specScan (rest.length + 1) 0 false false [] rest with
      | some (m, rest') => m :: specSpans fuel rest'
      | none => specSpans fuel rest
    else specSpans fuel rest

/-- The parse pipeline exactly as the specification describes it: same
first two strategies, but strategy three scans with the string-aware
balanced-brace tracker. Used only to compare the spec's description of
strategy three with the code's regex. -/
def claimParse (s : String) : ParseResult :=
  if s = "" then .failure "Empty or invalid response text" none
  else
    match loads s with
    | some d => .success d
    | none =>
      let viaFence : Option Jval :=
        match fenceSearch s.toList with
        | some g => loads (String.mk g)
        | none => none
      match viaFence with
      | some d => .success d
      | none =>
        match tryLoadList (specSpans s.toList.length s.toList) with
        | some d => .success d
        | none => .failure "Could not parse valid JSON from response" (some s)

/-! ## Data model of the orchestration core (`orchestrator.py`)

Dictionaries whose keys may be absent are modelled with `Option` fields;
`.get(key, default)` accesses become `Option.getD`. Python sets are
modelled as duplicate-free lists under insertion-if-absent, which
preserves membership and cardinality, the only operations used. -/

structure TrajEntry where
  skill : String
  score : Int
  difficulty : String
  timestamp : Nat
deriving DecidableEq

structure PerfEntry where
  score : Int
  grade : String
  question_difficulty : String
  timestamp : Nat
deriving DecidableEq

/-- `self.candidate_profile`: the five keys set in `__init__` plus the
context keys `start_interview` merges in. -/
structure CandidateProfile where
  strengths : List String
  weaknesses : List String
  skill_trajectory : List TrajEntry
  preferred_difficulty : String
  areas_needing_focus : List String
  role_context : Option String
  initial_difficulty : Option String
  focus_areas : List String
deriving DecidableEq

def initProfile : CandidateProfile :=
  { strengths := [], weaknesses := [], skill_trajectory := []
    preferred_difficulty := "Medium", areas_needing_focus := []
    role_context := none, initial_difficulty := none, focus_areas := [] }

/-- An evaluation dictionary as consumed by the orchestrator: the fields
it reads, each optional when read through `.get`. -/
structure Evaluation where
  score : Option Int
  grade : Option String
  justification : Option String
  follow_up_needed : Bool
  follow_up_suggestion : Option String
deriving DecidableEq

/-- A generated question, restricted to the fields the orchestration
logic reads. `dataset_ok` stands for
`dataset_info.get("generated_successfully")`. -/
structure Question where
  question_id : String
  skill_target : Option String
  difficulty : Option String
  requires_dataset : Bool
  dataset_ok : Bool
deriving DecidableEq

structure AssessmentRecord where
  question_index : Nat
  question : Question
  candidate_answer : String
  evaluation : Evaluation
  timestamp : Nat
  excel_skill : Option String
deriving DecidableEq

structure ChatEntry where
  timestamp : Nat
  kind : String
  content : String
  question_id : Option String
deriving DecidableEq

structure CandidateData where
  name : String
  role_type : String
  difficulty_level : String
  excel_focus_areas : List String
  max_questions : Nat
  include_datasets : Bool
deriving DecidableEq

structure FinalDecision where
  decision : String
  overall_score : Int
  recommendation_summary : String
deriving DecidableEq

/-- `self.interview_metadata`, a dictionary that starts empty; every
field is optional so key presence is tracked. -/
structure Metadata where
  candidate : Option String
  role_context : Option String
  start_time : Option Nat
  max_questions : Option Nat
  end_time : Option Nat
  duration : Option Int
  questions_completed : Option Nat
  final_decision : Option FinalDecision
deriving DecidableEq

def emptyMetadata : Metadata :=
  { candidate := none, role_context := none, start_time := none
    max_questions := none, end_time := none, duration := none
    questions_completed := none, final_decision := none }

structure TrajDecision where
  timestamp : Nat
  reasoning : String
  trajectory : String
  questions_generated : Nat
deriving DecidableEq

/-- The orchestrator's mutable state, one field per `self.*` attribute of
`InterviewOrchestrator` that belongs to the orchestration core. -/
structure OrchState where
  interview_state : String
  current_questions : List Question
  current_question_index : Nat
  chat_history : List ChatEntry
  assessment_results : List AssessmentRecord
  candidate_data : Option CandidateData
  interview_metadata : Metadata
  is_awaiting_follow_up : Bool
  excel_skills_tested : List String
  excel_performance_by_skill : List (String × List PerfEntry)
  candidate_profile : CandidateProfile
  trajectory_decisions : List TrajDecision
  start_time : Option Nat
  end_time : Option Nat
deriving DecidableEq

/-- The state established by `__init__`. -/
def initState : OrchState :=
  { interview_state := "not_started", current_questions := []
    current_question_index := 0, chat_history := []
    assessment_results := [], candidate_data := none
    interview_metadata := emptyMetadata, is_awaiting_follow_up := false
    excel_skills_tested := [], excel_performance_by_skill := []
    candidate_profile := initProfile, trajectory_decisions := []
    start_time := none, end_time := none }

/-- Python `set.add`. -/
def setAdd (x : String) (l : List String) : List String :=
  if x ∈ l then l else l ++ [x]

/-- Append an entry to `excel_performance_by_skill[skill]`, creating the
key if needed (the `if skill not in ...` / `append` pair). -/
def perfAdd (skill : String) (e : PerfEntry) :
    List (String × List PerfEntry) → List (String × List PerfEntry)
  | [] => [(skill, [e])]
  | (k, v) :: rest =>
    if k = skill then (k, v ++ [e]) :: rest else (k, v) :: perfAdd skill e rest

/-- The last `min(n, length)` elements, Python's `l[-n:]`. -/
def lastN (n : Nat) (l : List α) : List α := l.drop (l.length - n)

/-- Python `max` over a non-empty list (`0` for the never-occurring empty
case). -/
def listMax : List Int → Int
  | [] => 0
  | x :: xs => xs.foldl max x

/-- Python `min` over a non-empty list. -/
def listMin : List Int → Int
  | [] => 0
  | x :: xs => xs.foldl min x

/-! ## CandidateProfile update (`_update_candidate_profile`, profile part)

Lines 576-603 of `orchestrator.py`: append to the trajectory, flag
strengths and weaknesses, recompute `preferred_difficulty` from the mean
of the last three trajectory scores. The mean is Python float division of
an integer sum by 1, 2 or 3, which is faithfully modelled by exact
rational arithmetic (for integer scores the float result can only differ
from the exact value by strictly less than the distance to the decision
thresholds). -/

/-- The difficulty chosen from the mean of the recent scores (lines
595-603): Python float division of an integer sum by 1, 2 or 3 modelled
exactly over `ℚ`. -/
def meanDifficulty (scores : List Int) : String :=
  let avg_recent : ℚ := ((scores.map fun z => (z : ℚ)).sum) / (scores.length : ℚ)
  if avg_recent ≥ 85 then "Hard" else if avg_recent ≥ 70 then "Medium" else "Easy"

def updateProfile (skill : String) (score : Int) (difficulty : String) (now : Nat)
    (p : CandidateProfile) : CandidateProfile :=
  let p := { p with skill_trajectory :=
    p.skill_trajectory ++ [⟨skill, score, difficulty, now⟩] }
  let p :=
    if score ≥ 80 then
      { p with strengths := if skill ∈ p.strengths then p.strengths else p.strengths ++ [skill] }
    else if score < 60 then
      { p with
        weaknesses :=
          if skill ∈ p.weaknesses then p.weaknesses else p.weaknesses ++ [skill]
        areas_needing_focus :=
          if skill ∈ p.areas_needing_focus then p.areas_needing_focus
          else p.areas_needing_focus ++ [skill] }
    else p
  let recent_scores := (lastN 3 p.skill_trajectory).map TrajEntry.score
  if recent_scores = [] then p
  else { p with preferred_difficulty := meanDifficulty recent_scores }

/-- `_update_candidate_profile` on the orchestrator state: per-skill
performance tracking plus the profile update, with the `.get` defaults
the code uses (`skill_target` → "Unknown", `score` → 0, `grade` → "",
`difficulty` → ""). -/
def update_candidate_profile (q : Question) (ev : Evaluation) (now : Nat)
    (st : OrchState) : OrchState :=
  let skill := q.skill_target.getD "Unknown"
  let score := ev.score.getD 0
  let grade := ev.grade.getD ""
  { st with
    excel_performance_by_skill :=
      perfAdd skill ⟨score, grade, q.difficulty.getD "", now⟩ st.excel_performance_by_skill
    candidate_profile :=
      updateProfile skill score (q.difficulty.getD "") now st.candidate_profile }

/-! ## Continue/stop policy (`_should_continue_adaptive_assessment`)

The score extraction `r["evaluation"]["score"]` raises `KeyError` when an
evaluation carries no score; raised exceptions surface as the `.error`
case (they are caught by `process_response`'s catch-all). -/

structure Decision where
  cont : Bool
  reason : String
deriving DecidableEq

/-- `self.candidate_data.get("max_questions", 10)`. -/
def maxQuestionsOf (st : OrchState) : Nat :=
  match st.candidate_data with
  | some cd => cd.max_questions
  | none => 10

/-- The trailing skill-coverage check and default of
`_should_continue_adaptive_assessment`. -/
def coverageCheck (st : OrchState) : Decision :=
  if st.excel_skills_tested.length ≥ 5 then ⟨false, "Adequate skill coverage achieved"⟩
  else ⟨true, "Continue adaptive assessment"⟩

/-- The comprehension `[r["evaluation"]["score"] for r in records]`: a
record without a score raises `KeyError` (`none`). -/
def extractScores : List AssessmentRecord → Option (List Int)
  | [] => some []
  | r :: rest =>
    match r.evaluation.score, extractScores rest with
    | some s, some l => some (s :: l)
    | _, _ => none

def should_continue_adaptive_assessment (st : OrchState) : Except String Decision :=
  if st.assessment_results.length < 4 then
    .ok ⟨true, "Need minimum assessment coverage"⟩
  else if st.assessment_results.length ≥ maxQuestionsOf st then
    .ok ⟨false, "Reached maximum question limit"⟩
  else if st.assessment_results.length ≥ 6 then
    match extractScores (lastN 4 st.assessment_results) with
    | none => .error "KeyError: score"
    | some recent_scores =>
      if listMax recent_scores - listMin recent_scores < 15 then
        .ok ⟨false, "Performance level established"⟩
      else .ok (coverageCheck st)
  else .ok (coverageCheck st)

/-- `shouldContinue` exactly as the specification words it (§4.4): a pure
function of the record scores, the question cap, and the number of
distinct skills tested, with the rules in the spec's order. Stated from
the spec for comparison with `should_continue_adaptive_assessment`. -/
def shouldContinueSpec (records : List Int) (maxQ : Nat) (skillsTested : Nat) : Decision :=
  if records.length < 4 then ⟨true, "Need minimum assessment coverage"⟩
  else if records.length ≥ maxQ then ⟨false, "Reached maximum question limit"⟩
  else if records.length ≥ 6 ∧ listMax (lastN 4 records) - listMin (lastN 4 records) < 15 then
    ⟨false, "Performance level established"⟩
  else if skillsTested ≥ 5 then ⟨false, "Adequate skill coverage achieved"⟩
  else ⟨true, "Continue adaptive assessment"⟩

/-! ## Orchestrator operations

Each public operation takes an environment of external call outcomes
(`Except` values for the LLM-backed collaborators, a clock tick) and maps
state to state plus the returned dictionary. `Except.error` models both a
`success: False` return from an agent and an exception the method's
catch-all would swallow. -/

/-- Outcome of `start_interview`: the success payload or the error
dictionary. -/
inductive StartResult where
  | ok : String → Question → String → StartResult
  | err : String → StartResult
deriving DecidableEq

/-- External outcomes consumed by one `start_interview` call:
`_generate_next_questions` (already parsed and dataset-enhanced),
`interviewer_agent.start_interview`, and
`interviewer_agent.present_question`. -/
structure StartEnv where
  gen : Except String (List Question)
  welcome : Except String String
  present : Except String String
  now : Nat

/-- Lines 125-154 of `start_interview`: candidate data, profile context,
metadata and the start tick are all assigned before the initial batch is
requested. -/
def startSetup (name role diffLevel : String) (focus : List String)
    (maxQ : Nat) (includeDS : Bool) (now : Nat) (st : OrchState) : OrchState :=
  let st := { st with candidate_data := some ⟨name, role, diffLevel, focus, maxQ, includeDS⟩ }
  let st := { st with candidate_profile := { st.candidate_profile with role_context := some role, initial_difficulty := some diffLevel, focus_areas := focus, preferred_difficulty := "Medium" } }
  let st := { st with interview_metadata := { emptyMetadata with candidate := some name, role_context := some role, start_time := some now, max_questions := some maxQ } }
  { st with start_time := some now }

/-- `start_interview` (lines 111-229): sets candidate data, profile
context, metadata and the start timestamp, then requests the initial
batch; collaborator failures return the error dictionary through the
catch-all while the already-performed assignments persist. Presenting the
first question of an empty batch raises `IndexError`, likewise caught. -/
def start_interview (name role diffLevel : String) (focus : List String)
    (maxQ : Nat) (includeDS : Bool) (env : StartEnv) (st : OrchState) :
    OrchState × StartResult :=
  let st := startSetup name role diffLevel focus maxQ includeDS env.now st
  match env.gen with
  | .error e => (st, .err ("Failed to generate initial questions: " ++ e))
  | .ok qs =>
    let st := { st with current_questions := qs }
    match env.welcome with
    | .error e => (st, .err ("Failed to start interview: " ++ e))
    | .ok wmsg =>
      match qs with
      | [] => (st, .err "list index out of range")
      | q0 :: _ =>
        match env.present with
        | .error e => (st, .err ("Failed to present first question: " ++ e))
        | .ok ptext =>
          let st := { st with interview_state := "in_progress", current_question_index := 0 }
          let st := { st with excel_skills_tested := setAdd (q0.skill_target.getD "Unknown") st.excel_skills_tested }
          let st := { st with chat_history := st.chat_history ++ [⟨env.now, "adaptive_excel_interview_start", wmsg, none⟩, ⟨env.now, "adaptive_question", ptext, some q0.question_id⟩] }
          (st, .ok wmsg q0 ptext)

/-- Outcome of `process_response`: error dictionary, follow-up payload,
completion payload, or next-question payload. -/
inductive ProcResult where
  | err : String → ProcResult
  | followUp : Option String → String → ProcResult
  | completed : String → String → FinalDecision → ProcResult
  | next : String → Question → String → Evaluation → ProcResult
deriving DecidableEq

/-- External outcomes consumed by `_complete_adaptive_assessment`:
`recruiter_agent.make_final_decision` and
`interviewer_agent.conclude_interview`. -/
structure CompleteEnv where
  recruiter : Except String FinalDecision
  conclusion : Except String String
  now : Nat

/-- External outcomes consumed by one `process_response` call. -/
structure ProcEnv where
  evaluation : Except String Evaluation
  clarification : Except String String
  ack : Except String String
  gen : Except String (List Question × String × String)
  present : Except String String
  completion : CompleteEnv
  now : Nat

/-- The fixed decision substituted when the recruiter call fails. -/
def fallbackDecision : FinalDecision :=
  ⟨"Requires Manual Review", 0, "Unable to generate adaptive assessment decision."⟩

/-- The final decision actually adopted (lines 689-702): the recruiter's
on success, `fallbackDecision` on failure. -/
def recruiterOr (env : CompleteEnv) : FinalDecision :=
  match env.recruiter with
  | .ok d => d
  | .error _ => fallbackDecision

/-- The conclusion message adopted (lines 704-711): conclusion-call
failures fall back to the default through `.get`. -/
def conclusionOr (env : CompleteEnv) : String :=
  match env.conclusion with
  | .ok m => m
  | .error _ => "Thank you for completing the adaptive Excel assessment!"

/-- `_complete_adaptive_assessment` (lines 673-739): freeze state and end
time first; a recruiter failure substitutes `fallbackDecision`; a
conclusion failure falls back to the default message via `.get`. The
metadata duration `end - start` raises `TypeError` when `start_time` is
unset (only reachable by calling outside the lifecycle), caught by the
handler after the state transition already happened. -/
def complete_adaptive_assessment (acknowledgment _reason : String)
    (env : CompleteEnv) (st : OrchState) : OrchState × ProcResult :=
  let st := { st with interview_state := "completed", end_time := some env.now }
  let fd := recruiterOr env
  let conclusionMsg := conclusionOr env
  match st.start_time with
  | none => (st, .err "TypeError: unsupported operand type for -")
  | some t0 =>
    let st := { st with interview_metadata :=
      { st.interview_metadata with
        end_time := some env.now, duration := some ((env.now : Int) - (t0 : Int))
        questions_completed := some st.assessment_results.length
        final_decision := some fd } }
    (st, .completed acknowledgment conclusionMsg fd)

/-- The chat entry `process_response` logs before evaluating. -/
def mkRespEntry (now : Nat) (answer : String) (qid : String) : ChatEntry :=
  ⟨now, "adaptive_response", answer, some qid⟩

/-- Lines 405-413: the candidate's answer is appended to the chat history
before the evaluator is called. -/
def logResponse (answer : String) (now : Nat) (cq : Question) (st : OrchState) : OrchState :=
  { st with chat_history := st.chat_history ++ [mkRespEntry now answer cq.question_id] }

/-- Profile update plus assessment-record append (lines 427-441), the
state change shared by the follow-up and the normal path. -/
def recordAssessment (answer : String) (ev : Evaluation) (now : Nat)
    (cq : Question) (st : OrchState) : OrchState :=
  let st := update_candidate_profile cq ev now st
  { st with assessment_results := st.assessment_results ++
    [⟨st.assessment_results.length, cq, answer, ev, now, cq.skill_target⟩] }

/-- Presenting the question at the cursor (lines 503-552): an exhausted
batch raises `IndexError`; a presentation failure returns the error
dictionary before the skill is marked tested or the chat logged. -/
def presentStep (acknowledgment : String) (ev : Evaluation) (env : ProcEnv)
    (st : OrchState) : OrchState × ProcResult :=
  if h : st.current_question_index < st.current_questions.length then
    let nq := st.current_questions.get ⟨st.current_question_index, h⟩
    match env.present with
    | .error e => (st, .err ("Failed to present next question: " ++ e))
    | .ok ptext =>
      let st := { st with excel_skills_tested := setAdd (nq.skill_target.getD "Unknown") st.excel_skills_tested }
      let st := { st with chat_history := st.chat_history ++ [⟨env.now, "adaptive_question", ptext, some nq.question_id⟩] }
      (st, .next acknowledgment nq ptext ev)
  else (st, .err "list index out of range")

/-- `process_response` (lines 381-556). Order of effects mirrors the
source: lifecycle and cursor guards; log the response to chat history;
evaluate (failure returns here); update the profile and append the
assessment record; branch on follow-up; otherwise ask the continue/stop
policy, completing on stop; else advance the cursor, extending the batch
when exhausted (generation failure forces completion); finally present
the question at the cursor. -/
def process_response (answer : String) (env : ProcEnv) (st : OrchState) :
    OrchState × ProcResult :=
  if st.interview_state ≠ "in_progress" then (st, .err "Interview not in progress")
  else if h : st.current_question_index < st.current_questions.length then
    let cq := st.current_questions.get ⟨st.current_question_index, h⟩
    let st := logResponse answer env.now cq st
    match env.evaluation with
    | .error e => (st, .err ("Failed to evaluate response: " ++ e))
    | .ok ev =>
      let st := recordAssessment answer ev env.now cq st
      if ev.follow_up_needed then
        match env.clarification with
        | .error e => (st, .err e)
        | .ok cl => (st, .followUp ev.justification cl)
      else
        let acknowledgment := match env.ack with
          | .ok a => a
          | .error _ => "Thank you for your response."
        match should_continue_adaptive_assessment st with
        | .error e => (st, .err e)
        | .ok dec =>
          if dec.cont = false then
            complete_adaptive_assessment acknowledgment dec.reason env.completion st
          else
            let st := { st with current_question_index := st.current_question_index + 1 }
            if st.current_question_index ≥ st.current_questions.length then
              match env.gen with
              | .error _ =>
                complete_adaptive_assessment acknowledgment
                  "Failed to generate adaptive questions" env.completion st
              | .ok (qs, reasoning, traj) =>
                let st := { st with current_questions := st.current_questions ++ qs, trajectory_decisions := st.trajectory_decisions ++ [⟨env.now, reasoning, traj, qs.length⟩] }
                presentStep acknowledgment ev env st
            else presentStep acknowledgment ev env st
  else (st, .err "No current question available")

/-- States reachable by the documented lifecycle: construction, one
`start_interview` call on the fresh orchestrator, then any sequence of
`process_response` calls. -/
inductive Reach : OrchState → Prop where
  | init : Reach initState
  | start : ∀ name role diffLevel focus maxQ includeDS env,
      Reach (start_interview name role diffLevel focus maxQ includeDS env initState).1
  | step : ∀ st answer env, Reach st →
      Reach (process_response answer env st).1

/-- One `update(skill, score, difficulty)` call (with its clock tick). -/
structure UpdateCall where
  skill : String
  score : Int
  difficulty : String
  timestamp : Nat
deriving DecidableEq

/-- A sequence of profile updates, in call order. -/
def applyUpdates (calls : List UpdateCall) (p : CandidateProfile) : CandidateProfile :=
  calls.foldl (fun acc c => updateProfile c.skill c.score c.difficulty c.timestamp acc) p

/-- The trajectory entry a single update call appends. -/
def callEntry (c : UpdateCall) : TrajEntry := ⟨c.skill, c.score, c.difficulty, c.timestamp⟩

/-! ## Concrete fixtures

Small closed instances used by the counterexample and witness theorems:
a started interview with a two-question batch, and environments for the
relevant collaborator outcomes. -/

def sampleQ1 : Question := ⟨"q1", some "Lookup Functions", some "Medium", false, false⟩

def sampleQ2 : Question := ⟨"q2", some "Pivot Tables", some "Medium", false, false⟩

def sampleQ3 : Question := ⟨"q3", some "Data Visualization", some "Medium", false, false⟩

def evalScore50 : Evaluation := ⟨some 50, some "Partly Acceptable", some "justified", false, none⟩

def evalFollowUp : Evaluation := ⟨some 50, some "Partly Acceptable", some "justified", true, some "more detail"⟩

def evalNoScore : Evaluation := ⟨none, none, some "justified", false, none⟩

def completeEnvFail : CompleteEnv := ⟨.error "recruiter down", .ok "goodbye", 9⟩

def startEnvOk : StartEnv := ⟨.ok [sampleQ1, sampleQ2], .ok "hello", .ok "first question text", 1⟩

def startEnvEmpty : StartEnv := ⟨.ok [], .ok "hello", .ok "unused", 7⟩

def startEnvGenFail : StartEnv := ⟨.error "backend unavailable", .ok "hello", .ok "unused", 5⟩

def procEnvOk : ProcEnv :=
  ⟨.ok evalScore50, .ok "please clarify", .ok "thanks", .ok ([sampleQ3], "target gaps", "probe weak areas"), .ok "next question text", completeEnvFail, 2⟩

def procEnvEvalFail : ProcEnv :=
  ⟨.error "llm down", .ok "please clarify", .ok "thanks", .error "gen", .ok "presentation", completeEnvFail, 3⟩

def procEnvFollowUp : ProcEnv :=
  ⟨.ok evalFollowUp, .ok "please clarify", .ok "thanks", .error "gen", .ok "presentation", completeEnvFail, 4⟩

/-- State after a successful `start_interview` on a fresh orchestrator. -/
def stStarted : OrchState :=
  (start_interview "Alice" "Business Analyst" "Mixed Assessment" [] 10 true startEnvOk initState).1

/-- State after one processed response on `stStarted` (cursor at 1 of 2). -/
def stAfterOne : OrchState := (process_response "answer one" procEnvOk stStarted).1

/-- A profile that already flags one weakness. -/
def flaggedProfile : CandidateProfile :=
  { initProfile with weaknesses := ["Pivot Tables"], areas_needing_focus := ["Pivot Tables"] }

/-! ## Helper lemmas: profile update -/

theorem updateProfile_trajectory (skill : String) (sc : Int) (d : String) (t : Nat)
    (p : CandidateProfile) :
    (updateProfile skill sc d t p).skill_trajectory =
      p.skill_trajectory ++ [⟨skill, sc, d, t⟩] := by
  simp only [updateProfile]
  split_ifs <;> rfl

theorem updateProfile_strengths (skill : String) (sc : Int) (d : String) (t : Nat)
    (p : CandidateProfile) :
    (updateProfile skill sc d t p).strengths =
      if sc ≥ 80 ∧ skill ∉ p.strengths then p.strengths ++ [skill] else p.strengths := by
  simp only [updateProfile]
  split_ifs <;> simp_all

theorem updateProfile_weaknesses (skill : String) (sc : Int) (d : String) (t : Nat)
    (p : CandidateProfile) :
    (updateProfile skill sc d t p).weaknesses =
      if sc < 60 ∧ skill ∉ p.weaknesses then p.weaknesses ++ [skill] else p.weaknesses := by
  simp only [updateProfile]
  split_ifs <;> simp_all <;> omega

theorem updateProfile_areas (skill : String) (sc : Int) (d : String) (t : Nat)
    (p : CandidateProfile) :
    (updateProfile skill sc d t p).areas_needing_focus =
      if sc < 60 ∧ skill ∉ p.areas_needing_focus then p.areas_needing_focus ++ [skill]
      else p.areas_needing_focus := by
  simp only [updateProfile]
  split_ifs <;> simp_all <;> omega

theorem updateProfile_preferred (skill : String) (sc : Int) (d : String) (t : Nat)
    (p : CandidateProfile) :
    (updateProfile skill sc d t p).preferred_difficulty =
      meanDifficulty ((lastN 3 (p.skill_trajectory ++ [⟨skill, sc, d, t⟩])).map TrajEntry.score) := by
  have hne : ((lastN 3 (p.skill_trajectory ++ [⟨skill, sc, d, t⟩])).map TrajEntry.score) ≠ [] := by
    have : 0 < ((lastN 3 (p.skill_trajectory ++ [⟨skill, sc, d, t⟩])).map TrajEntry.score).length := by
      simp only [List.length_map, lastN, List.length_drop, List.length_append,
        List.length_cons, List.length_nil]
      omega
    exact List.ne_nil_of_length_pos this
  simp only [updateProfile]
  split_ifs <;> simp_all

theorem applyUpdates_cons (c : UpdateCall) (cs : List UpdateCall) (p : CandidateProfile) :
    applyUpdates (c :: cs) p =
      applyUpdates cs (updateProfile c.skill c.score c.difficulty c.timestamp p) := rfl

theorem applyUpdates_trajectory (calls : List UpdateCall) (p : CandidateProfile) :
    (applyUpdates calls p).skill_trajectory =
      p.skill_trajectory ++ calls.map callEntry := by
  induction calls generalizing p with
  | nil => simp [applyUpdates]
  | cons c cs ih =>
    rw [applyUpdates_cons, ih, updateProfile_trajectory]
    simp [callEntry]

theorem updateProfile_weaknesses_mono (skill : String) (sc : Int) (d : String) (t : Nat)
    (p : CandidateProfile) (w : String) (hw : w ∈ p.weaknesses) :
    w ∈ (updateProfile skill sc d t p).weaknesses := by
  rw [updateProfile_weaknesses]
  split_ifs <;> simp [hw]

theorem updateProfile_areas_mono (skill : String) (sc : Int) (d : String) (t : Nat)
    (p : CandidateProfile) (w : String) (hw : w ∈ p.areas_needing_focus) :
    w ∈ (updateProfile skill sc d t p).areas_needing_focus := by
  rw [updateProfile_areas]
  split_ifs <;> simp [hw]

theorem applyUpdates_weaknesses_mono (calls : List UpdateCall) (p : CandidateProfile)
    (w : String) (hw : w ∈ p.weaknesses) : w ∈ (applyUpdates calls p).weaknesses := by
  induction calls generalizing p with
  | nil => exact hw
  | cons c cs ih =>
    rw [applyUpdates_cons]
    exact ih _ (updateProfile_weaknesses_mono _ _ _ _ _ _ hw)

theorem applyUpdates_areas_mono (calls : List UpdateCall) (p : CandidateProfile)
    (w : String) (hw : w ∈ p.areas_needing_focus) :
    w ∈ (applyUpdates calls p).areas_needing_focus := by
  induction calls generalizing p with
  | nil => exact hw
  | cons c cs ih =>
    rw [applyUpdates_cons]
    exact ih _ (updateProfile_areas_mono _ _ _ _ _ _ hw)

/-! ## Claim C6: CandidateProfile.update -/

/-- C6: every `update(skill, score, difficulty)` call appends exactly one
trajectory entry (so after any sequence of calls the trajectory is the
initial one followed by one entry per call, in call order); it adds the
skill to strengths exactly when the score is at least 80 and it is absent;
adds it to weaknesses and to areas-needing-focus exactly when the score is
below 60 and it is absent; and recomputes the preferred difficulty from
the mean of the last `min(3, len(trajectory))` scores with the 85/70
thresholds (`meanDifficulty`). -/
theorem updateProfile_spec :
    (∀ skill sc d t p, (updateProfile skill sc d t p).skill_trajectory =
        p.skill_trajectory ++ [⟨skill, sc, d, t⟩]) ∧
    (∀ calls p, (applyUpdates calls p).skill_trajectory =
        p.skill_trajectory ++ calls.map callEntry) ∧
    (∀ calls p, (applyUpdates calls p).skill_trajectory.length =
        p.skill_trajectory.length + calls.length) ∧
    (∀ skill sc d t p, (updateProfile skill sc d t p).strengths =
        if sc ≥ 80 ∧ skill ∉ p.strengths then p.strengths ++ [skill] else p.strengths) ∧
    (∀ skill sc d t p, (updateProfile skill sc d t p).weaknesses =
        if sc < 60 ∧ skill ∉ p.weaknesses then p.weaknesses ++ [skill] else p.weaknesses) ∧
    (∀ skill sc d t p, (updateProfile skill sc d t p).areas_needing_focus =
        if sc < 60 ∧ skill ∉ p.areas_needing_focus then p.areas_needing_focus ++ [skill]
        else p.areas_needing_focus) ∧
    (∀ skill sc d t p, (updateProfile skill sc d t p).preferred_difficulty =
        meanDifficulty ((lastN 3 (p.skill_trajectory ++ [⟨skill, sc, d, t⟩])).map TrajEntry.score)) := by
  refine ⟨updateProfile_trajectory, applyUpdates_trajectory, ?_,
    updateProfile_strengths, updateProfile_weaknesses, updateProfile_areas,
    updateProfile_preferred⟩
  intro calls p
  rw [applyUpdates_trajectory]
  simp

/-! ## Claim C7: weaknesses are monotone -/

/-- C7: within a session the weaknesses and areas-needing-focus lists only
grow: a skill present before any single update, or any sequence of
updates, is still present afterwards — even when every later score for it
is 80 or above (the score is universally quantified). -/
theorem weaknesses_monotone :
    (∀ skill sc d t p w, w ∈ p.weaknesses →
        w ∈ (updateProfile skill sc d t p).weaknesses) ∧
    (∀ skill sc d t p w, w ∈ p.areas_needing_focus →
        w ∈ (updateProfile skill sc d t p).areas_needing_focus) ∧
    (∀ calls p w, w ∈ p.weaknesses → w ∈ (applyUpdates calls p).weaknesses) ∧
    (∀ calls p w, w ∈ p.areas_needing_focus →
        w ∈ (applyUpdates calls p).areas_needing_focus) :=
  ⟨updateProfile_weaknesses_mono, updateProfile_areas_mono,
   applyUpdates_weaknesses_mono, applyUpdates_areas_mono⟩

/-- Witness for C7: a flagged weakness survives a later score of 95 on
the same skill, and a whole sequence of 95-scoring updates. -/
theorem weaknesses_monotone_witness :
    "Pivot Tables" ∈ (updateProfile "Pivot Tables" 95 "Hard" 3 flaggedProfile).weaknesses ∧
    "Pivot Tables" ∈ (applyUpdates [⟨"Pivot Tables", 95, "Hard", 4⟩, ⟨"Pivot Tables", 88, "Hard", 5⟩] flaggedProfile).weaknesses :=
  ⟨weaknesses_monotone.1 "Pivot Tables" 95 "Hard" 3 flaggedProfile "Pivot Tables" (by decide),
   weaknesses_monotone.2.2.1 [⟨"Pivot Tables", 95, "Hard", 4⟩, ⟨"Pivot Tables", 88, "Hard", 5⟩]
     flaggedProfile "Pivot Tables" (by decide)⟩

/-! ## Claim C10: a missing score is treated as 0 -/

/-- C10: when a successful evaluation carries no numeric score (and no
grade), `_update_candidate_profile` behaves exactly as if the score were
0 and the grade the empty string: the trajectory entry records 0 (so 0
enters the preferred-difficulty mean), and the question's skill joins
weaknesses and areas-needing-focus whenever absent. -/
theorem missing_score_treated_as_zero (q : Question) (ev : Evaluation) (t : Nat)
    (st : OrchState) (hs : ev.score = none) (hg : ev.grade = none) :
    update_candidate_profile q ev t st =
      update_candidate_profile q { ev with score := some 0, grade := some "" } t st ∧
    (update_candidate_profile q ev t st).candidate_profile.skill_trajectory =
      st.candidate_profile.skill_trajectory ++
        [⟨q.skill_target.getD "Unknown", 0, q.difficulty.getD "", t⟩] ∧
    (q.skill_target.getD "Unknown" ∉ st.candidate_profile.weaknesses →
      (update_candidate_profile q ev t st).candidate_profile.weaknesses =
        st.candidate_profile.weaknesses ++ [q.skill_target.getD "Unknown"]) ∧
    (q.skill_target.getD "Unknown" ∉ st.candidate_profile.areas_needing_focus →
      (update_candidate_profile q ev t st).candidate_profile.areas_needing_focus =
        st.candidate_profile.areas_needing_focus ++ [q.skill_target.getD "Unknown"]) := by
  refine ⟨?_, ?_, ?_, ?_⟩
  · simp [update_candidate_profile, hs, hg]
  · simp only [update_candidate_profile, hs, Option.getD_none]
    rw [updateProfile_trajectory]
  · intro hnotin
    simp only [update_candidate_profile, hs, Option.getD_none]
    rw [updateProfile_weaknesses]
    simp [hnotin]
  · intro hnotin
    simp only [update_candidate_profile, hs, Option.getD_none]
    rw [updateProfile_areas]
    simp [hnotin]

/-- Witness for C10: a score-free evaluation on `stStarted` flags the
current question's skill as a weakness with trajectory score 0. -/
theorem missing_score_treated_as_zero_witness :
    (update_candidate_profile sampleQ1 evalNoScore 5 stStarted).candidate_profile.skill_trajectory =
      stStarted.candidate_profile.skill_trajectory ++ [⟨"Lookup Functions", 0, "Medium", 5⟩] ∧
    (update_candidate_profile sampleQ1 evalNoScore 5 stStarted).candidate_profile.weaknesses =
      stStarted.candidate_profile.weaknesses ++ ["Lookup Functions"] :=
  ⟨(missing_score_treated_as_zero sampleQ1 evalNoScore 5 stStarted rfl rfl).2.1,
   (missing_score_treated_as_zero sampleQ1 evalNoScore 5 stStarted rfl rfl).2.2.1 (by decide)⟩

/-! ## Claim C2: the continue/stop rule order -/

theorem extractScores_eq (l : List AssessmentRecord)
    (h : ∀ r ∈ l, (r.evaluation.score).isSome) :
    extractScores l = some (l.map fun r => r.evaluation.score.getD 0) := by
  induction l with
  | nil => rfl
  | cons r rest ih =>
    have hr := h r (by simp)
    have hrest : ∀ x ∈ rest, (x.evaluation.score).isSome := fun x hx => h x (by simp [hx])
    obtain ⟨s, hs⟩ := Option.isSome_iff_exists.mp hr
    simp [extractScores, hs, ih hrest]

theorem lastN_map (f : α → β) (n : Nat) (l : List α) :
    lastN n (l.map f) = (lastN n l).map f := by
  simp [lastN, List.length_map, List.map_drop]

/-- C2: on every state whose records all carry scores,
`_should_continue_adaptive_assessment` returns exactly the decision of the
spec's rule cascade (`shouldContinueSpec`, rules in the spec's order,
first match winning) applied to the record scores, the question cap, and
the distinct-skill count; and on every state with fewer than four records
it continues, with no require­ment on scores at all. -/
theorem shouldContinue_matches_spec :
    (∀ st : OrchState, (∀ r ∈ st.assessment_results, (r.evaluation.score).isSome) →
      should_continue_adaptive_assessment st =
        .ok (shouldContinueSpec (st.assessment_results.map fun r => r.evaluation.score.getD 0)
              (maxQuestionsOf st) st.excel_skills_tested.length)) ∧
    (∀ st : OrchState, st.assessment_results.length < 4 →
      should_continue_adaptive_assessment st = .ok ⟨true, "Need minimum assessment coverage"⟩) := by
  constructor
  · intro st h
    have hex : extractScores (lastN 4 st.assessment_results) =
        some ((lastN 4 st.assessment_results).map fun r => r.evaluation.score.getD 0) :=
      extractScores_eq _ (fun r hr => h r (List.drop_subset _ _ hr))
    unfold should_continue_adaptive_assessment shouldContinueSpec
    simp only [List.length_map]
    by_cases h4 : st.assessment_results.length < 4
    · simp [h4]
    · by_cases hmax : st.assessment_results.length ≥ maxQuestionsOf st
      · simp [h4, hmax]
      · by_cases h6 : st.assessment_results.length ≥ 6
        · by_cases hv : listMax ((lastN 4 st.assessment_results).map fun r =>
              r.evaluation.score.getD 0) - listMin ((lastN 4 st.assessment_results).map fun r =>
              r.evaluation.score.getD 0) < 15
          · simp [h4, hmax, h6, hex, lastN_map, hv]
          · simp only [h4, hmax, h6, hex, lastN_map, hv, if_false, if_true,
              ite_false, ite_true, and_true, and_false, not_false_iff]
            simp [hv, coverageCheck]
        · have hcond : ¬(st.assessment_results.length ≥ 6 ∧
              listMax (lastN 4 (st.assessment_results.map fun r => r.evaluation.score.getD 0)) -
              listMin (lastN 4 (st.assessment_results.map fun r => r.evaluation.score.getD 0)) < 15) :=
            fun hc => h6 hc.1
          rw [if_neg h4, if_neg hmax, if_neg h6, if_neg h4, if_neg hmax, if_neg hcond]
          unfold coverageCheck
          split_ifs <;> rfl
  · intro st h
    simp [should_continue_adaptive_assessment, h]

/-- Witness for C2: the spec cascade agrees with the code on the
one-record state `stAfterOne`, and a fresh orchestrator (zero records)
continues under the minimum-coverage floor. -/
theorem shouldContinue_matches_spec_witness :
    should_continue_adaptive_assessment stAfterOne =
      .ok (shouldContinueSpec (stAfterOne.assessment_results.map fun r => r.evaluation.score.getD 0)
            (maxQuestionsOf stAfterOne) stAfterOne.excel_skills_tested.length) ∧
    should_continue_adaptive_assessment initState =
      .ok ⟨true, "Need minimum assessment coverage"⟩ :=
  ⟨shouldContinue_matches_spec.1 stAfterOne (by decide),
   shouldContinue_matches_spec.2 initState (by decide)⟩

/-! ## Claim C8: the layered parse strategy -/

/-- Counterexample for C8: the claim describes strategy three as tracking
string literals so braces inside string values do not break matching. On
`note: \x7b"a": "\x7d"\x7d` — prose followed by a JSON object whose string
value is a lone closing brace — the spec-worded pipeline succeeds, but the
code's regex (no string awareness) takes `\x7b"a": "\x7d` as the only
candidate span, fails to parse it, and returns the Unparseable error. -/
theorem string_brace_defeats_scanner_cex :
    parse_json_response "note: \x7b\"a\": \"\x7d\"\x7d" =
      .failure "Could not parse valid JSON from response" (some "note: \x7b\"a\": \"\x7d\"\x7d") ∧
    claimParse "note: \x7b\"a\": \"\x7d\"\x7d" = .success (Jval.jobj [("a", Jval.jstr "\x7d")]) :=
  ⟨rfl, rfl⟩

/-- C8 as amended: the pipeline tries the whole text first, then the
fenced block, then the regex-found brace spans left to right (first
successful parse wins); when everything fails the error carries the
original text; non-empty scrutiny happens only after the up-front empty
check; and the function is total, so no exception reaches the caller.
(The strategy-three scanner is the bounded-depth regex, not the
string-aware tracker the claim describes — see the counterexample.) -/
theorem parse_pipeline_spec :
    (∀ s d, loads s = some d → parse_json_response s = .success d) ∧
    (∀ s g d, s ≠ "" → loads s = none → fenceSearch s.toList = some g →
      loads (String.mk g) = some d → parse_json_response s = .success d) ∧
    (∀ s d, s ≠ "" → loads s = none →
      (∀ g, fenceSearch s.toList = some g → loads (String.mk g) = none) →
      tryLoadList (findSpans s.toList.length s.toList) = some d →
      parse_json_response s = .success d) ∧
    (∀ s, s ≠ "" → loads s = none →
      (∀ g, fenceSearch s.toList = some g → loads (String.mk g) = none) →
      tryLoadList (findSpans s.toList.length s.toList) = none →
      parse_json_response s = .failure "Could not parse valid JSON from response" (some s)) ∧
    (∀ sp rest d, loads (String.mk sp) = some d → tryLoadList (sp :: rest) = some d) ∧
    (∀ s, (∃ d, parse_json_response s = .success d) ∨
      parse_json_response s = .failure "Could not parse valid JSON from response" (some s) ∨
      (s = "" ∧ parse_json_response s = .failure "Empty or invalid response text" none)) := by
  have hfen : ∀ s, s ≠ "" → loads s = none →
      (∀ g, fenceSearch s.toList = some g → loads (String.mk g) = none) →
      ∀ r, tryLoadList (findSpans s.toList.length s.toList) = r →
      parse_json_response s = (match r with
        | some d => .success d
        | none => .failure "Could not parse valid JSON from response" (some s)) := by
    intro s hs hl hfence r ht
    have ht' : tryLoadList (findSpans s.length s.data) = r := ht
    rcases hfs : fenceSearch s.data with _ | g
    · simp [parse_json_response, hs, hl, hfs, ht']
    · have hg : loads (String.mk g) = none := hfence g hfs
      simp [parse_json_response, hs, hl, hfs, hg, ht']
  refine ⟨?_, ?_, ?_, ?_, ?_, ?_⟩
  · intro s d h
    have hs : s ≠ "" := by
      intro he
      rw [he] at h
      exact Option.noConfusion ((rfl : loads "" = none) ▸ h)
    simp [parse_json_response, hs, h]
  · intro s g d hs hl hf hg
    have hf' : fenceSearch s.data = some g := hf
    simp [parse_json_response, hs, hl, hf', hg]
  · intro s d hs hl hfence ht
    exact hfen s hs hl hfence _ ht
  · intro s hs hl hfence ht
    exact hfen s hs hl hfence _ ht
  · intro sp rest d h
    simp [tryLoadList, h]
  · intro s
    by_cases hs : s = ""
    · exact Or.inr (Or.inr ⟨hs, by simp [parse_json_response, hs]⟩)
    · rcases hl : loads s with _ | d
      · rcases hfs : fenceSearch s.data with _ | g
        · rcases ht : tryLoadList (findSpans s.length s.data) with _ | d
          · exact Or.inr (Or.inl (by simp [parse_json_response, hs, hl, hfs, ht]))
          · exact Or.inl ⟨d, by simp [parse_json_response, hs, hl, hfs, ht]⟩
        · rcases hg : loads (String.mk g) with _ | d
          · rcases ht : tryLoadList (findSpans s.length s.data) with _ | d
            · exact Or.inr (Or.inl (by simp [parse_json_response, hs, hl, hfs, hg, ht]))
            · exact Or.inl ⟨d, by simp [parse_json_response, hs, hl, hfs, hg, ht]⟩
          · exact Or.inl ⟨d, by simp [parse_json_response, hs, hl, hfs, hg]⟩
      · exact Or.inl ⟨d, by simp [parse_json_response, hs, hl]⟩

/-- Witness for C8: strategy one on a direct JSON document, and the
fallback on garbage, both obtained by applying the pipeline theorem. -/
theorem parse_pipeline_spec_witness :
    parse_json_response "[1]" = .success (Jval.jarr [Jval.jnum "1"]) ∧
    parse_json_response "no json here" =
      .failure "Could not parse valid JSON from response" (some "no json here") :=
  ⟨parse_pipeline_spec.1 "[1]" (Jval.jarr [Jval.jnum "1"]) rfl,
   parse_pipeline_spec.2.2.2.1 "no json here" (by decide) rfl
     (fun g hg => absurd hg (by rw [show fenceSearch "no json here".toList = none from rfl]; exact Option.noConfusion)) rfl⟩

/-! ## Helper lemmas: orchestrator state projections -/

theorem logResponse_questions (a : String) (n : Nat) (cq : Question) (st : OrchState) :
    (logResponse a n cq st).current_questions = st.current_questions := rfl

theorem logResponse_index (a : String) (n : Nat) (cq : Question) (st : OrchState) :
    (logResponse a n cq st).current_question_index = st.current_question_index := rfl

theorem logResponse_state (a : String) (n : Nat) (cq : Question) (st : OrchState) :
    (logResponse a n cq st).interview_state = st.interview_state := rfl

theorem logResponse_results (a : String) (n : Nat) (cq : Question) (st : OrchState) :
    (logResponse a n cq st).assessment_results = st.assessment_results := rfl

theorem logResponse_traj (a : String) (n : Nat) (cq : Question) (st : OrchState) :
    (logResponse a n cq st).trajectory_decisions = st.trajectory_decisions := rfl

theorem recordAssessment_questions (a : String) (ev : Evaluation) (n : Nat) (cq : Question)
    (st : OrchState) : (recordAssessment a ev n cq st).current_questions = st.current_questions := rfl

theorem recordAssessment_index (a : String) (ev : Evaluation) (n : Nat) (cq : Question)
    (st : OrchState) :
    (recordAssessment a ev n cq st).current_question_index = st.current_question_index := rfl

theorem recordAssessment_state (a : String) (ev : Evaluation) (n : Nat) (cq : Question)
    (st : OrchState) : (recordAssessment a ev n cq st).interview_state = st.interview_state := rfl

theorem recordAssessment_traj (a : String) (ev : Evaluation) (n : Nat) (cq : Question)
    (st : OrchState) :
    (recordAssessment a ev n cq st).trajectory_decisions = st.trajectory_decisions := rfl

theorem recordAssessment_results (a : String) (ev : Evaluation) (n : Nat) (cq : Question)
    (st : OrchState) : (recordAssessment a ev n cq st).assessment_results =
      st.assessment_results ++ [⟨st.assessment_results.length, cq, a, ev, n, cq.skill_target⟩] := rfl

theorem complete_questions (a r : String) (env : CompleteEnv) (st : OrchState) :
    (complete_adaptive_assessment a r env st).1.current_questions = st.current_questions := by
  unfold complete_adaptive_assessment
  cases st.start_time <;> rfl

theorem complete_index (a r : String) (env : CompleteEnv) (st : OrchState) :
    (complete_adaptive_assessment a r env st).1.current_question_index =
      st.current_question_index := by
  unfold complete_adaptive_assessment
  cases st.start_time <;> rfl

theorem complete_state (a r : String) (env : CompleteEnv) (st : OrchState) :
    (complete_adaptive_assessment a r env st).1.interview_state = "completed" := by
  unfold complete_adaptive_assessment
  cases st.start_time <;> rfl

theorem presentStep_questions (a : String) (ev : Evaluation) (env : ProcEnv) (st : OrchState) :
    (presentStep a ev env st).1.current_questions = st.current_questions := by
  unfold presentStep
  split
  · cases env.present <;> rfl
  · rfl

theorem presentStep_index (a : String) (ev : Evaluation) (env : ProcEnv) (st : OrchState) :
    (presentStep a ev env st).1.current_question_index = st.current_question_index := by
  unfold presentStep
  split
  · cases env.present <;> rfl
  · rfl

theorem presentStep_state (a : String) (ev : Evaluation) (env : ProcEnv) (st : OrchState) :
    (presentStep a ev env st).1.interview_state = st.interview_state := by
  unfold presentStep
  split
  · cases env.present <;> rfl
  · rfl

theorem presentStep_traj (a : String) (ev : Evaluation) (env : ProcEnv) (st : OrchState) :
    (presentStep a ev env st).1.trajectory_decisions = st.trajectory_decisions := by
  unfold presentStep
  split
  · cases env.present <;> rfl
  · rfl

/-! ## Claim C1: state on evaluator failure -/

/-- C1 as amended: when the evaluator fails, `process_response` returns
the evaluation error and the only state change is the chat-history entry
logging the candidate's answer, appended before the evaluator was called;
no assessment record, profile change, cursor move, batch change, or
skills-tested change occurs (the result state is exactly the input state
with one chat entry appended). -/
theorem evalError_frame (answer : String) (env : ProcEnv) (st : OrchState) (e : String)
    (h1 : st.interview_state = "in_progress")
    (h2 : st.current_question_index < st.current_questions.length)
    (h3 : env.evaluation = .error e) :
    process_response answer env st =
      ({ st with chat_history := st.chat_history ++
          [mkRespEntry env.now answer
            (st.current_questions.get ⟨st.current_question_index, h2⟩).question_id] },
       .err ("Failed to evaluate response: " ++ e)) := by
  unfold process_response
  rw [if_neg (by simp [h1]), dif_pos h2, h3]
  rfl

/-- Witness for C1's amended theorem at a concrete started interview. -/
theorem evalError_frame_witness :
    process_response "my answer" procEnvEvalFail stStarted =
      ({ stStarted with chat_history := stStarted.chat_history ++ [mkRespEntry 3 "my answer" "q1"] },
       .err "Failed to evaluate response: llm down") :=
  evalError_frame "my answer" procEnvEvalFail stStarted "llm down" rfl (by decide) rfl

/-- Counterexample for C1: the claim says the chat history is unchanged
on evaluator failure; in fact the candidate's answer has already been
logged, so the chat history grows by one entry (everything else is
indeed untouched). -/
theorem evalError_logs_chat_entry_cex :
    (process_response "my answer" procEnvEvalFail stStarted).2 =
      .err "Failed to evaluate response: llm down" ∧
    (process_response "my answer" procEnvEvalFail stStarted).1.chat_history.length =
      stStarted.chat_history.length + 1 ∧
    (process_response "my answer" procEnvEvalFail stStarted).1.assessment_results =
      stStarted.assessment_results ∧
    (process_response "my answer" procEnvEvalFail stStarted).1.candidate_profile =
      stStarted.candidate_profile ∧
    (process_response "my answer" procEnvEvalFail stStarted).1.current_question_index =
      stStarted.current_question_index ∧
    (process_response "my answer" procEnvEvalFail stStarted).1.current_questions =
      stStarted.current_questions ∧
    (process_response "my answer" procEnvEvalFail stStarted).1.excel_skills_tested =
      stStarted.excel_skills_tested := by
  refine ⟨rfl, rfl, rfl, rfl, rfl, rfl, rfl⟩

/-! ## Claim C5: the follow-up path -/

/-- C5 as amended: within the call that detects `follow_up_needed`,
exactly one assessment record is appended — for the original answer —
and the follow-up question is returned with the cursor, the batch, and
the lifecycle state untouched, whatever the continue/stop inputs are.
(The next `process_response` call then treats the follow-up answer as a
fresh answer to the same question — see the counterexample.) -/
theorem follow_up_frame (answer : String) (env : ProcEnv) (st : OrchState) (ev : Evaluation)
    (cl : String)
    (h1 : st.interview_state = "in_progress")
    (h2 : st.current_question_index < st.current_questions.length)
    (h3 : env.evaluation = .ok ev) (h4 : ev.follow_up_needed = true)
    (h5 : env.clarification = .ok cl) :
    (process_response answer env st).2 = .followUp ev.justification cl ∧
    (process_response answer env st).1.current_question_index = st.current_question_index ∧
    (process_response answer env st).1.current_questions = st.current_questions ∧
    (process_response answer env st).1.interview_state = "in_progress" ∧
    (process_response answer env st).1.assessment_results = st.assessment_results ++
      [⟨st.assessment_results.length,
        st.current_questions.get ⟨st.current_question_index, h2⟩, answer, ev, env.now,
        (st.current_questions.get ⟨st.current_question_index, h2⟩).skill_target⟩] := by
  have key : process_response answer env st =
      (recordAssessment answer ev env.now
        (st.current_questions.get ⟨st.current_question_index, h2⟩)
        (logResponse answer env.now
          (st.current_questions.get ⟨st.current_question_index, h2⟩) st),
       .followUp ev.justification cl) := by
    unfold process_response
    rw [if_neg (by simp [h1]), dif_pos h2, h3]
    simp only [h4, if_true, h5]
  rw [key]
  exact ⟨rfl, rfl, rfl, by rw [recordAssessment_state, logResponse_state, h1], rfl⟩

/-- Witness for C5's amended theorem: on `stStarted`, a follow-up-flagged
evaluation yields the follow-up payload, leaves the cursor at 0, and
appends the single record for the original answer. -/
theorem follow_up_frame_witness :
    (process_response "original" procEnvFollowUp stStarted).2 =
      .followUp (some "justified") "please clarify" ∧
    (process_response "original" procEnvFollowUp stStarted).1.current_question_index = 0 ∧
    (process_response "original" procEnvFollowUp stStarted).1.assessment_results =
      [⟨0, sampleQ1, "original", evalFollowUp, 4, some "Lookup Functions"⟩] :=
  ⟨(follow_up_frame "original" procEnvFollowUp stStarted evalFollowUp "please clarify"
      rfl (by decide) rfl rfl rfl).1,
   (follow_up_frame "original" procEnvFollowUp stStarted evalFollowUp "please clarify"
      rfl (by decide) rfl rfl rfl).2.1,
   (follow_up_frame "original" procEnvFollowUp stStarted evalFollowUp "please clarify"
      rfl (by decide) rfl rfl rfl).2.2.2.2⟩

/-- Counterexample for C5: the claim says no assessment record is ever
appended for the follow-up answer itself. But the orchestrator keeps no
awaiting-follow-up flag (`is_awaiting_follow_up` is never consulted), so
submitting the follow-up answer through the next `process_response` call
runs the normal pipeline: after the follow-up exchange there are two
records for the same question, and the second record's stored answer is
the follow-up answer. -/
theorem follow_up_answer_is_recorded_cex :
    (process_response "follow-up answer" procEnvOk
        (process_response "original" procEnvFollowUp stStarted).1).1.assessment_results.map
      (fun r => r.candidate_answer) = ["original", "follow-up answer"] ∧
    (process_response "follow-up answer" procEnvOk
        (process_response "original" procEnvFollowUp stStarted).1).1.assessment_results.map
      (fun r => r.question) = [sampleQ1, sampleQ1] := ⟨rfl, rfl⟩

/-! ## Claim C9: completion always succeeds -/

/-- C9: entered from `in_progress` (where the lifecycle guarantees a
start timestamp), completion always returns the success payload: the
state transitions to `completed` with the end tick frozen, the decision
is the recruiter's on success, and on recruiter failure it is the fixed
fallback `Requires Manual Review` with overall score 0. -/
theorem complete_always_succeeds (ack reason : String) (env : CompleteEnv) (st : OrchState)
    (t0 : Nat) (_h1 : st.interview_state = "in_progress") (h2 : st.start_time = some t0) :
    (complete_adaptive_assessment ack reason env st).1.interview_state = "completed" ∧
    (complete_adaptive_assessment ack reason env st).1.end_time = some env.now ∧
    (complete_adaptive_assessment ack reason env st).2 =
      .completed ack (conclusionOr env) (recruiterOr env) ∧
    (∀ e, env.recruiter = .error e → recruiterOr env = fallbackDecision) ∧
    fallbackDecision.decision = "Requires Manual Review" ∧
    fallbackDecision.overall_score = 0 := by
  refine ⟨complete_state ack reason env st, ?_, ?_, ?_, rfl, rfl⟩
  · unfold complete_adaptive_assessment
    rw [show ({ st with interview_state := "completed", end_time := some env.now } :
      OrchState).start_time = some t0 from h2]
  · unfold complete_adaptive_assessment
    rw [show ({ st with interview_state := "completed", end_time := some env.now } :
      OrchState).start_time = some t0 from h2]
  · intro e he
    unfold recruiterOr
    rw [he]

/-- Witness for C9: completing a started interview with a failing
recruiter still succeeds with the fallback decision. -/
theorem complete_always_succeeds_witness :
    (complete_adaptive_assessment "ok" "max reached" completeEnvFail stStarted).1.interview_state =
      "completed" ∧
    (complete_adaptive_assessment "ok" "max reached" completeEnvFail stStarted).1.end_time = some 9 ∧
    (complete_adaptive_assessment "ok" "max reached" completeEnvFail stStarted).2 =
      .completed "ok" "goodbye" fallbackDecision :=
  ⟨(complete_always_succeeds "ok" "max reached" completeEnvFail stStarted 1 rfl rfl).1,
   (complete_always_succeeds "ok" "max reached" completeEnvFail stStarted 1 rfl rfl).2.1,
   (complete_always_succeeds "ok" "max reached" completeEnvFail stStarted 1 rfl rfl).2.2.1⟩

/-! ## Claim C4: start failure -/

/-- C4 as amended: when the initial batch request fails, `start_interview`
returns the generation error and the state remains `not_started`; a
generation result with zero questions likewise fails (through the index
error its presentation raises). But startup is not clean: candidate data,
profile context, metadata, and the start timestamp were assigned before
the batch request and persist (and in the zero-questions case the batch is
set to the empty list). -/
theorem start_failure_behavior (name role dl : String) (focus : List String) (maxQ : Nat)
    (ids : Bool) (env : StartEnv) :
    (∀ e, env.gen = .error e →
      start_interview name role dl focus maxQ ids env initState =
        (startSetup name role dl focus maxQ ids env.now initState,
         .err ("Failed to generate initial questions: " ++ e))) ∧
    (∀ w, env.gen = .ok [] → env.welcome = .ok w →
      start_interview name role dl focus maxQ ids env initState =
        (startSetup name role dl focus maxQ ids env.now initState,
         .err "list index out of range")) ∧
    (startSetup name role dl focus maxQ ids env.now initState).interview_state = "not_started" ∧
    (startSetup name role dl focus maxQ ids env.now initState).candidate_data =
      some ⟨name, role, dl, focus, maxQ, ids⟩ ∧
    (startSetup name role dl focus maxQ ids env.now initState).start_time = some env.now ∧
    initState.candidate_data = none ∧ initState.start_time = none := by
  refine ⟨?_, ?_, rfl, rfl, rfl, rfl, rfl⟩
  · intro e he
    unfold start_interview
    rw [he]
  · intro w hg hw
    unfold start_interview
    rw [hg, hw]
    rfl

/-- Counterexample for C4: the claim says a failed start leaves candidate
data, profile, metadata and start time as if start had never been called.
After a failed start they are all set: candidate data and start time are
`some`, the profile carries the role context, and the metadata carries
the session fields, while on the fresh orchestrator they were `none`. -/
theorem start_failure_leaves_partial_state :
    (start_interview "Alice" "Business Analyst" "Mixed Assessment" [] 10 true
        startEnvGenFail initState).2 =
      .err "Failed to generate initial questions: backend unavailable" ∧
    (start_interview "Alice" "Business Analyst" "Mixed Assessment" [] 10 true
        startEnvGenFail initState).1.interview_state = "not_started" ∧
    (start_interview "Alice" "Business Analyst" "Mixed Assessment" [] 10 true
        startEnvGenFail initState).1.candidate_data =
      some ⟨"Alice", "Business Analyst", "Mixed Assessment", [], 10, true⟩ ∧
    (start_interview "Alice" "Business Analyst" "Mixed Assessment" [] 10 true
        startEnvGenFail initState).1.start_time = some 5 ∧
    (start_interview "Alice" "Business Analyst" "Mixed Assessment" [] 10 true
        startEnvGenFail initState).1.candidate_profile.role_context = some "Business Analyst" ∧
    (start_interview "Alice" "Business Analyst" "Mixed Assessment" [] 10 true
        startEnvGenFail initState).1.interview_metadata.candidate = some "Alice" ∧
    initState.candidate_data = none ∧ initState.start_time = none ∧
    initState.candidate_profile.role_context = none ∧
    initState.interview_metadata.candidate = none :=
  ⟨rfl, rfl, rfl, rfl, rfl, rfl, rfl, rfl, rfl, rfl⟩

/-! ## Claim C3: the question-queue invariant -/

theorem process_step_inv (answer : String) (env : ProcEnv) (st : OrchState)
    (hinv : st.current_question_index ≤ st.current_questions.length) :
    (process_response answer env st).1.current_question_index ≤
      (process_response answer env st).1.current_questions.length := by
  unfold process_response
  by_cases hs : st.interview_state ≠ "in_progress"
  · rw [if_pos hs]
    exact hinv
  · rw [if_neg hs]
    by_cases hidx : st.current_question_index < st.current_questions.length
    · rw [dif_pos hidx]
      rcases hev : env.evaluation with e | ev
      · exact hinv
      · by_cases hfu : ev.follow_up_needed = true
        · rcases hcl : env.clarification with ec | cl <;>
            simp only [hfu, eq_self_iff_true, if_true, ite_true] <;> exact hinv
        · simp only [hfu, Bool.not_eq_true, Bool.false_eq_true, if_false, ite_false]
          rcases hsc : should_continue_adaptive_assessment
              (recordAssessment answer ev env.now
                (st.current_questions.get ⟨st.current_question_index, hidx⟩)
                (logResponse answer env.now
                  (st.current_questions.get ⟨st.current_question_index, hidx⟩) st)) with e2 | dec
          · exact hinv
          · by_cases hdec : dec.cont = false
            · simp only [hdec, eq_self_iff_true, if_true, ite_true]
              rw [complete_index, complete_questions, recordAssessment_index,
                recordAssessment_questions, logResponse_index, logResponse_questions]
              exact hinv
            · simp only [hdec, Bool.not_eq_false, Bool.true_eq_false, if_false, ite_false]
              rw [recordAssessment_index, recordAssessment_questions,
                logResponse_index, logResponse_questions]
              by_cases hend : st.current_question_index + 1 ≥ st.current_questions.length
              · simp only [hend, eq_self_iff_true, if_true, ite_true]
                rcases hgen : env.gen with e3 | g3
                · rw [complete_index, complete_questions]
                  simp only [recordAssessment_index, recordAssessment_questions,
                    logResponse_index, logResponse_questions]
                  omega
                · rcases g3 with ⟨qs, r, t⟩
                  rw [presentStep_index, presentStep_questions]
                  simp only [recordAssessment_index, recordAssessment_questions,
                    logResponse_index, logResponse_questions, List.length_append]
                  omega
              · simp only [hend, if_false, ite_false]
                rw [presentStep_index, presentStep_questions]
                simp only [recordAssessment_index, recordAssessment_questions,
                  logResponse_index, logResponse_questions]
                omega
    · rw [dif_neg hidx]
      exact hinv

theorem start_inv (name role dl : String) (focus : List String) (maxQ : Nat) (ids : Bool)
    (env : StartEnv) :
    (start_interview name role dl focus maxQ ids env initState).1.current_question_index ≤
      (start_interview name role dl focus maxQ ids env initState).1.current_questions.length := by
  unfold start_interview
  rcases env.gen with e | qs
  · exact Nat.zero_le _
  · rcases env.welcome with e | w
    · exact Nat.zero_le _
    · rcases qs with _ | ⟨q0, rest⟩
      · exact Nat.zero_le _
      · rcases env.present with e | p
        · exact Nat.zero_le _
        · exact Nat.zero_le _

theorem reach_inv (st : OrchState) (h : Reach st) :
    st.current_question_index ≤ st.current_questions.length := by
  induction h with
  | init => exact Nat.zero_le _
  | start name role dl focus maxQ ids env => exact start_inv name role dl focus maxQ ids env
  | step st answer env _ ih => exact process_step_inv answer env st ih

theorem process_questions_ext (answer : String) (env : ProcEnv) (st : OrchState) :
    ∃ ext, (process_response answer env st).1.current_questions =
      st.current_questions ++ ext := by
  unfold process_response
  by_cases hs : st.interview_state ≠ "in_progress"
  · rw [if_pos hs]
    exact ⟨[], by simp⟩
  · rw [if_neg hs]
    by_cases hidx : st.current_question_index < st.current_questions.length
    · rw [dif_pos hidx]
      rcases hev : env.evaluation with e | ev
      · exact ⟨[], by simp [logResponse_questions]⟩
      · by_cases hfu : ev.follow_up_needed = true
        · rcases hcl : env.clarification with ec | cl <;>
            simp only [hfu, eq_self_iff_true, if_true, ite_true] <;>
            exact ⟨[], by simp [recordAssessment_questions, logResponse_questions]⟩
        · simp only [hfu, Bool.not_eq_true, Bool.false_eq_true, if_false, ite_false]
          rcases hsc : should_continue_adaptive_assessment
              (recordAssessment answer ev env.now
                (st.current_questions.get ⟨st.current_question_index, hidx⟩)
                (logResponse answer env.now
                  (st.current_questions.get ⟨st.current_question_index, hidx⟩) st)) with e2 | dec
          · exact ⟨[], by simp [recordAssessment_questions, logResponse_questions]⟩
          · by_cases hdec : dec.cont = false
            · simp only [hdec, eq_self_iff_true, if_true, ite_true]
              exact ⟨[], by simp [complete_questions, recordAssessment_questions,
                logResponse_questions]⟩
            · simp only [hdec, Bool.not_eq_false, Bool.true_eq_false, if_false, ite_false]
              rw [recordAssessment_index, recordAssessment_questions,
                logResponse_index, logResponse_questions]
              by_cases hend : st.current_question_index + 1 ≥ st.current_questions.length
              · simp only [hend, eq_self_iff_true, if_true, ite_true]
                rcases hgen : env.gen with e3 | g3
                · exact ⟨[], by rw [complete_questions]; simp [recordAssessment_questions, logResponse_questions]⟩
                · rcases g3 with ⟨qs, r, t⟩
                  exact ⟨qs, by rw [presentStep_questions]⟩
              · simp only [hend, if_false, ite_false]
                exact ⟨[], by rw [presentStep_questions]; simp [recordAssessment_questions, logResponse_questions]⟩
    · rw [dif_neg hidx]
      exact ⟨[], by simp⟩

theorem batch_extension_attempt (answer : String) (env : ProcEnv) (st : OrchState)
    (ev : Evaluation) (dec : Decision)
    (h1 : st.interview_state = "in_progress")
    (h2 : st.current_question_index < st.current_questions.length)
    (h3 : env.evaluation = .ok ev) (h4 : ev.follow_up_needed = false)
    (h5 : should_continue_adaptive_assessment
        (recordAssessment answer ev env.now
          (st.current_questions.get ⟨st.current_question_index, h2⟩)
          (logResponse answer env.now
            (st.current_questions.get ⟨st.current_question_index, h2⟩) st)) = .ok dec)
    (h6 : dec.cont = true)
    (h7 : st.current_question_index + 1 = st.current_questions.length) :
    (∀ e, env.gen = .error e →
      (process_response answer env st).1.interview_state = "completed") ∧
    (∀ qs r t, env.gen = .ok (qs, r, t) →
      (process_response answer env st).1.current_questions = st.current_questions ++ qs ∧
      (process_response answer env st).1.trajectory_decisions =
        st.trajectory_decisions ++ [⟨env.now, r, t, qs.length⟩]) := by
  have hge : st.current_question_index + 1 ≥ st.current_questions.length :=
    Nat.le_of_eq h7.symm
  have key : ∀ P : OrchState × ProcResult → Prop,
      P (match env.gen with
         | .error _ =>
           complete_adaptive_assessment
             (match env.ack with | .ok a => a | .error _ => "Thank you for your response.")
             "Failed to generate adaptive questions" env.completion
             { recordAssessment answer ev env.now
                 (st.current_questions.get ⟨st.current_question_index, h2⟩)
                 (logResponse answer env.now
                   (st.current_questions.get ⟨st.current_question_index, h2⟩) st) with
               current_question_index := st.current_question_index + 1 }
         | .ok (qs, reasoning, traj) =>
           presentStep
             (match env.ack with | .ok a => a | .error _ => "Thank you for your response.")
             ev env
             { recordAssessment answer ev env.now
                 (st.current_questions.get ⟨st.current_question_index, h2⟩)
                 (logResponse answer env.now
                   (st.current_questions.get ⟨st.current_question_index, h2⟩) st) with
               current_question_index := st.current_question_index + 1
               current_questions := st.current_questions ++ qs
               trajectory_decisions :=
                 (recordAssessment answer ev env.now
                   (st.current_questions.get ⟨st.current_question_index, h2⟩)
                   (logResponse answer env.now
                     (st.current_questions.get ⟨st.current_question_index, h2⟩) st)).trajectory_decisions ++
                 [⟨env.now, reasoning, traj, qs.length⟩] }) →
      P (process_response answer env st) := by
    intro P hp
    unfold process_response
    rw [if_neg (by simp [h1]), dif_pos h2, h3]
    simp only [h4, Bool.false_eq_true, if_false, ite_false]
    rw [h5]
    simp only [h6, Bool.true_eq_false, if_false, ite_false,
      recordAssessment_index, recordAssessment_questions,
      logResponse_index, logResponse_questions, hge, eq_self_iff_true, if_true, ite_true,
      ge_iff_le, le_refl]
    exact hp
  constructor
  · intro e he
    refine key (fun p => p.1.interview_state = "completed") ?_
    rw [he]
    exact complete_state _ _ _ _
  · intro qs r t he
    constructor
    · refine key (fun p => p.1.current_questions = st.current_questions ++ qs) ?_
      rw [he]
      simp only []
      rw [presentStep_questions]
    · refine key (fun p => p.1.trajectory_decisions =
        st.trajectory_decisions ++ [⟨env.now, r, t, qs.length⟩]) ?_
      rw [he]
      simp only []
      rw [presentStep_traj]
      simp [recordAssessment_traj, logResponse_traj]

/-- C3 as amended: restricted to the documented lifecycle (one
`start_interview` on the fresh orchestrator, then any `process_response`
sequence — the code does not itself guard start's precondition), the
queue invariant `cursor ≤ len(batch)` holds after every call; every
`process_response` call only ever appends to the batch (the old batch is
a prefix of the new one); and when the cursor is incremented to equal the
batch length while the decision is to continue, the generation outcome is
consulted: on success the batch is extended by exactly the generated
questions (with a trajectory-decision log entry), on failure the
assessment is completed instead. -/
theorem queue_invariant_lifecycle :
    (∀ st, Reach st → st.current_question_index ≤ st.current_questions.length) ∧
    (∀ answer env st, (process_response answer env st).1.current_questions.take
        st.current_questions.length = st.current_questions) ∧
    (∀ answer env st ev dec (h2 : st.current_question_index < st.current_questions.length),
      st.interview_state = "in_progress" →
      env.evaluation = .ok ev → ev.follow_up_needed = false →
      should_continue_adaptive_assessment
        (recordAssessment answer ev env.now
          (st.current_questions.get ⟨st.current_question_index, h2⟩)
          (logResponse answer env.now
            (st.current_questions.get ⟨st.current_question_index, h2⟩) st)) = .ok dec →
      dec.cont = true →
      st.current_question_index + 1 = st.current_questions.length →
      (∀ e, env.gen = .error e →
        (process_response answer env st).1.interview_state = "completed") ∧
      (∀ qs r t, env.gen = .ok (qs, r, t) →
        (process_response answer env st).1.current_questions = st.current_questions ++ qs ∧
        (process_response answer env st).1.trajectory_decisions =
          st.trajectory_decisions ++ [⟨env.now, r, t, qs.length⟩])) := by
  refine ⟨reach_inv, ?_, ?_⟩
  · intro answer env st
    obtain ⟨ext, hext⟩ := process_questions_ext answer env st
    rw [hext, List.take_left]
  · intro answer env st ev dec h2 h1 h3 h4 h5 h6 h7
    exact batch_extension_attempt answer env st ev dec h1 h2 h3 h4 h5 h6 h7

/-- Witness for C3's amended theorem: the invariant on a reached state,
the prefix property on the started interview, and a concrete batch
extension — `stAfterOne` has its cursor about to hit the end of the
two-question batch, and processing the next answer with a successful
generation outcome appends exactly the generated question and logs the
trajectory decision. -/
theorem queue_invariant_lifecycle_witness :
    stAfterOne.current_question_index ≤ stAfterOne.current_questions.length ∧
    (process_response "answer one" procEnvOk stStarted).1.current_questions.take
      stStarted.current_questions.length = stStarted.current_questions ∧
    (process_response "answer two" procEnvOk stAfterOne).1.current_questions =
      stAfterOne.current_questions ++ [sampleQ3] ∧
    (process_response "answer two" procEnvOk stAfterOne).1.trajectory_decisions =
      stAfterOne.trajectory_decisions ++ [⟨2, "target gaps", "probe weak areas", 1⟩] :=
  ⟨queue_invariant_lifecycle.1 stAfterOne
     (Reach.step stStarted "answer one" procEnvOk
       (Reach.start "Alice" "Business Analyst" "Mixed Assessment" [] 10 true startEnvOk)),
   queue_invariant_lifecycle.2.1 "answer one" procEnvOk stStarted,
   ((queue_invariant_lifecycle.2.2 "answer two" procEnvOk stAfterOne evalScore50
       ⟨true, "Need minimum assessment coverage"⟩ (by decide) rfl rfl rfl rfl rfl rfl).2
     [sampleQ3] "target gaps" "probe weak areas" rfl).1,
   ((queue_invariant_lifecycle.2.2 "answer two" procEnvOk stAfterOne evalScore50
       ⟨true, "Need minimum assessment coverage"⟩ (by decide) rfl rfl rfl rfl rfl rfl).2
     [sampleQ3] "target gaps" "probe weak areas" rfl).2⟩

/-- Counterexample for C3: the claim quantifies over every sequence of
`start` and `processResponse` calls, but `start_interview` never checks
the lifecycle state. Calling it again mid-session with a generation
result of zero questions replaces the batch with the empty list while the
cursor is still 1: after that call `cursor > len(batch)`, the invariant
is violated, and the previously shown questions are no longer addressable. -/
theorem double_start_breaks_queue_invariant :
    (start_interview "Alice" "Business Analyst" "Mixed Assessment" [] 10 true
        startEnvEmpty stAfterOne).1.current_question_index = 1 ∧
    (start_interview "Alice" "Business Analyst" "Mixed Assessment" [] 10 true
        startEnvEmpty stAfterOne).1.current_questions = [] ∧
    (start_interview "Alice" "Business Analyst" "Mixed Assessment" [] 10 true
        startEnvEmpty stAfterOne).1.interview_state = "in_progress" ∧
    (start_interview "Alice" "Business Analyst" "Mixed Assessment" [] 10 true
        startEnvEmpty stAfterOne).2 = .err "list index out of range" :=
  ⟨rfl, rfl, rfl, rfl⟩

/-- Witness for C4's amended theorem: a failing and a zero-question
initial batch, both by applying the theorem. -/
theorem start_failure_behavior_witness :
    start_interview "Alice" "Business Analyst" "Mixed Assessment" [] 10 true
        startEnvGenFail initState =
      (startSetup "Alice" "Business Analyst" "Mixed Assessment" [] 10 true 5 initState,
       .err "Failed to generate initial questions: backend unavailable") ∧
    start_interview "Alice" "Business Analyst" "Mixed Assessment" [] 10 true
        startEnvEmpty initState =
      (startSetup "Alice" "Business Analyst" "Mixed Assessment" [] 10 true 7 initState,
       .err "list index out of range") :=
  ⟨(start_failure_behavior "Alice" "Business Analyst" "Mixed Assessment" [] 10 true
      startEnvGenFail).1 "backend unavailable" rfl,
   (start_failure_behavior "Alice" "Business Analyst" "Mixed Assessment" [] 10 true
      startEnvEmpty).2.1 "hello" rfl rfl⟩

/-- Witness for C6 at a concrete update on the fresh profile. -/
theorem updateProfile_spec_witness :
    (updateProfile "Macros" 90 "Hard" 1 initProfile).skill_trajectory =
      [⟨"Macros", 90, "Hard", 1⟩] ∧
    (updateProfile "Macros" 90 "Hard" 1 initProfile).strengths = ["Macros"] :=
  ⟨updateProfile_spec.1 "Macros" 90 "Hard" 1 initProfile,
   by rw [updateProfile_spec.2.2.2.1 "Macros" 90 "Hard" 1 initProfile]; rfl⟩
